import Mathlib

/-!
Shallow embedding of the aqara-agent2mqtt bridge (src/main.rs).

The program bridges an MQTT broker and a local seqpacket socket:
`mqtt_manager` subscribes to `miio/command`, forwards each payload into a
bounded tokio mpsc channel and updates the shared `SENDING_TOPIC_COMMAND`
record from the parsed JSON; `agent_manager` connects to the agent socket,
sends a bind message plus eight registration messages per successful
connection, then multiplexes between the command channel (writing payloads
to the socket) and the socket (classifying each datagram as an ack or a
report by comparing its `id` with the record, and publishing the raw bytes).

Pure data transformations are translated directly; the I/O outcomes that
the code branches on (connect / subscribe / send results, parse results,
select arms) are passed in explicitly as parameters, so every branch of the
Rust control flow appears as a branch of a Lean function.
-/

namespace Agent2Mqtt

/-! ## Topics (main.rs:56-58) -/

def TOPIC_COMMAND : String := "miio/command"

def TOPIC_COMMAND_ACK : String := "miio/command_ack"

def TOPIC_RESPONSE : String := "openmiio/report"

/-! ## JSON values as the code observes them

The code parses payloads with `serde_json::from_str::<Value>` /
`from_slice::<Value>` and then only ever calls `.get(key)` followed by
`.as_u64()`.  We model a parsed document as an association list of keys to
values, and a value by the cases that determine the answer of `as_u64`. -/

/-- Model of a `serde_json::Value` as far as the code inspects it.  `uint n`
is a number that serde stored as a `u64` candidate (non-negative integer);
`int i` is a negative integer; `float` any non-integral number; the
remaining constructors cover the other JSON kinds. -/
inductive JVal where
  | uint (n : Nat)
  | int (i : Int)
  | float
  | str (s : String)
  | bool (b : Bool)
  | null
  | arr
  | obj
deriving DecidableEq, Repr

/-- Rust `serde_json::Value::as_u64`: `Some` exactly for numbers
representable as an unsigned 64-bit integer. -/
def JVal.as_u64 : JVal → Option Nat
  | .uint n => if n < 2 ^ 64 then some n else none
  | _ => none

/-- A parsed JSON document: key/value pairs, looked up by first match
(serde maps have unique keys, so first match is the map lookup). -/
def Json : Type := List (String × JVal)

/-- Rust `Value::get(key)` on an object. -/
def Json.get (j : Json) (k : String) : Option JVal :=
  (List.find? (fun p => p.1 = k) j).map (fun p => p.2)

/-! ## The correlation record (main.rs:26-30, 59-65) -/

/-- The `SendingTopicCommand` struct: the shared correlation record.
The Rust field `from` is a Lean keyword, hence `from_`. -/
structure SendingTopicCommand where
  id : Nat
  to_ : Nat
  from_ : Nat
deriving DecidableEq, Repr

/-- Initial value of the `SENDING_TOPIC_COMMAND` static (main.rs:59-65). -/
def SENDING_TOPIC_COMMAND_init : SendingTopicCommand :=
  { id := 0, to_ := 0, from_ := 0 }

/-- Update of the correlation record from a parsed command payload
(main.rs:142-151): each of `id`, `_to`, `_from` is overwritten exactly when
`get(key).and_then(as_u64)` yields a value. -/
def updateSendingCommand (sending_command : SendingTopicCommand) (json_msg : Json) :
    SendingTopicCommand :=
  let rec1 := match (json_msg.get "id").bind JVal.as_u64 with
    | some id => { sending_command with id := id }
    | none => sending_command
  let rec2 := match (json_msg.get "_to").bind JVal.as_u64 with
    | some to_ => { rec1 with to_ := to_ }
    | none => rec1
  match (json_msg.get "_from").bind JVal.as_u64 with
    | some from_ => { rec2 with from_ := from_ }
    | none => rec2

/-! ## UTF-8 lossy conversion

`mqtt_manager` reads the inbound payload with `msg.payload_str()`
(main.rs:136).  paho-mqtt implements `payload_str` as
`String::from_utf8_lossy(self.payload())`, so an arbitrary byte payload is
decoded lossily: valid UTF-8 sequences are kept verbatim, and each maximal
ill-formed subpart is replaced by U+FFFD.  The resulting `String` travels
through the channel and is written back out with `payload.as_bytes()`
(main.rs:243).  We model bytes as `List Nat` and the whole
bytes-to-string-to-bytes composition as `utf8LossyBytes`. -/

/-- Continuation byte test: `0x80 ≤ b ≤ 0xBF`. -/
def isCont (b : Nat) : Bool := 0x80 ≤ b && b ≤ 0xBF

/-- Admissible first continuation byte of a three-byte sequence, by lead
byte (the ranges of Rust's UTF-8 validation, excluding surrogates and
overlong forms). -/
def valid3First (b c : Nat) : Bool :=
  (b = 0xE0 && 0xA0 ≤ c && c ≤ 0xBF) ||
  (0xE1 ≤ b && b ≤ 0xEC && isCont c) ||
  (b = 0xED && 0x80 ≤ c && c ≤ 0x9F) ||
  (0xEE ≤ b && b ≤ 0xEF && isCont c)

/-- Admissible first continuation byte of a four-byte sequence, by lead
byte (excluding overlong forms and code points above U+10FFFF). -/
def valid4First (b c : Nat) : Bool :=
  (b = 0xF0 && 0x90 ≤ c && c ≤ 0xBF) ||
  (0xF1 ≤ b && b ≤ 0xF3 && isCont c) ||
  (b = 0xF4 && 0x80 ≤ c && c ≤ 0x8F)

/-- One step of UTF-8 validation at lead byte `b` with remaining input
`rest`: returns `(extra, ok)` where `ok` reports whether a well-formed
scalar starts here and `extra` is how many bytes beyond the lead belong to
it — on failure, `extra` spans the maximal subpart of the ill-formed
sequence that a single U+FFFD replaces (Rust's `error_len`, with an
incomplete sequence at end of input consumed whole). -/
def utf8StepCore (b : Nat) (rest : List Nat) : Nat × Bool :=
  if b ≤ 0x7F then (0, true)
  else if 0xC2 ≤ b && b ≤ 0xDF then
    match rest with
    | c :: _ => if isCont c then (1, true) else (0, false)
    | [] => (0, false)
  else if 0xE0 ≤ b && b ≤ 0xEF then
    match rest with
    | c1 :: r1 =>
      if valid3First b c1 then
        match r1 with
        | c2 :: _ => if isCont c2 then (2, true) else (1, false)
        | [] => (1, false)
      else (0, false)
    | [] => (0, false)
  else if 0xF0 ≤ b && b ≤ 0xF4 then
    match rest with
    | c1 :: r1 =>
      if valid4First b c1 then
        match r1 with
        | c2 :: r2 =>
          if isCont c2 then
            match r2 with
            | c3 :: _ => if isCont c3 then (3, true) else (2, false)
            | [] => (2, false)
          else (1, false)
        | [] => (1, false)
      else (0, false)
    | [] => (0, false)
  else (0, false)

/-- UTF-8 encoding of U+FFFD, substituted for each ill-formed subpart. -/
def replacementBytes : List Nat := [0xEF, 0xBF, 0xBD]

/-- Fuel-driven worker for the lossy round trip; each step consumes at
least one byte, so fuel equal to the input length suffices. -/
def utf8LossyGo : Nat → List Nat → List Nat
  | 0, _ => []
  | _ + 1, [] => []
  | fuel + 1, b :: rest =>
    (if (utf8StepCore b rest).2 then b :: rest.take (utf8StepCore b rest).1
     else replacementBytes) ++ utf8LossyGo fuel (rest.drop (utf8StepCore b rest).1)

/-- The bytes written to the agent socket for a broker payload:
`String::from_utf8_lossy` re-encoded, i.e. `payload_str().as_bytes()`. -/
def utf8LossyBytes (bs : List Nat) : List Nat := utf8LossyGo bs.length bs

/-- Fuel-driven UTF-8 validity check along the same decomposition. -/
def utf8ValidGo : Nat → List Nat → Bool
  | 0, l => l.isEmpty
  | _ + 1, [] => true
  | fuel + 1, b :: rest =>
    (utf8StepCore b rest).2 && utf8ValidGo fuel (rest.drop (utf8StepCore b rest).1)

/-- A byte list is well-formed UTF-8 (Rust `str::from_utf8` succeeds). -/
def utf8Valid (bs : List Nat) : Bool := utf8ValidGo bs.length bs

/-! ## The command channel (main.rs:341, 137)

`main` creates `mpsc::channel::<String>(32)`.  The sender side is used as
`command_tx.send(payload.clone()).await`: per tokio's mpsc semantics this
call suspends while the queue is at capacity and resumes once space is
available, and it returns `Err` exactly when the receiver has been dropped
(the message is then returned undelivered).  `queue` tracks the messages
accepted for delivery; `blocked` records that the call had to suspend
because the queue was full at the time of the call. -/

/-- Capacity of the command channel (main.rs:341). -/
def channelCapacity : Nat := 32

/-- State of the bounded mpsc channel: whether the receiver is gone, and
the queued payloads (as the byte lists of the sent strings). -/
structure Channel where
  closed : Bool
  queue : List (List Nat)
deriving DecidableEq, Repr

/-- Outcome of one `send(...).await` call. -/
structure SendOutcome where
  ok : Bool
  blocked : Bool
deriving DecidableEq, Repr

/-- tokio `mpsc::Sender::send` as called at main.rs:137: fails only when
the receiver is dropped; otherwise waits for capacity and enqueues. -/
def Channel.send (ch : Channel) (msg : List Nat) : SendOutcome × Channel :=
  if ch.closed then ({ ok := false, blocked := false }, ch)
  else ({ ok := true, blocked := decide (channelCapacity ≤ ch.queue.length) },
        { ch with queue := ch.queue ++ [msg] })

/-! ## Broker connection lifecycle (main.rs:68-125)

The paho client calls are modelled by their outcomes, passed in as
booleans; the connection state tracks what the code has established. -/

/-- Broker session state: whether the client holds a live connection and
whether the command-topic subscription is active on it. -/
structure MqttConn where
  connected : Bool
  subscribed : Bool
deriving DecidableEq, Repr

/-- The `mqtt_subscribe` function (main.rs:80-91): on subscribe success
return `true`; on failure disconnect the client and return `false`. -/
def mqtt_subscribe (client : MqttConn) (subscribeOk : Bool) : Bool × MqttConn :=
  if subscribeOk then (true, { client with subscribed := true })
  else (false, { connected := false, subscribed := false })

/-- The `mqtt_reconnect` loop (main.rs:68-78) over a finite list of trial
outcomes `(reconnectOk, subscribeOk)`: returns the session state at the
`return` (both reconnect and subscribe succeeded), or `none` if the given
trials are exhausted with the loop still running.  A successful `reconnect`
yields a fresh connected, not-yet-subscribed session. -/
def mqtt_reconnect (client : MqttConn) : List (Bool × Bool) → Option MqttConn
  | [] => none
  | (reconnectOk, subscribeOk) :: trials =>
    if reconnectOk then
      let afterConnect : MqttConn := { connected := true, subscribed := false }
      let (ok, client2) := mqtt_subscribe afterConnect subscribeOk
      if ok then some client2 else mqtt_reconnect client2 trials
    else mqtt_reconnect client trials

/-- The initial connection loop of `mqtt_manager` (main.rs:103-125) over a
finite list of connect outcomes: on the first successful connect (with a
connect response) it calls `mqtt_subscribe` — discarding its result — and
breaks; `none` if every given attempt failed (loop still running). -/
def mqtt_manager_connect (subscribeOk : Bool) : List Bool → Option MqttConn
  | [] => none
  | connectOk :: attempts =>
    if connectOk then
      some (mqtt_subscribe { connected := true, subscribed := false } subscribeOk).2
    else mqtt_manager_connect subscribeOk attempts

/-! ## Broker inbound dispatch (main.rs:128-171) -/

/-- What the dispatch loop does after one stream item. -/
inductive MqttCtl where
  | next
  | reconnect
deriving DecidableEq, Repr

/-- Processing of one received message (main.rs:133-161): on the command
topic, take `payload_str` (lossy UTF-8), send it into the channel (an error
is only logged), then parse and, on success, update the correlation record
— a parse failure logs and leaves it alone.  Other topics are ignored.
`parse` stands for `serde_json::from_str::<Value>` on the payload string. -/
def mqttDispatch (parse : List Nat → Option Json) (sending_command : SendingTopicCommand)
    (ch : Channel) (topic : String) (payload : List Nat) :
    SendingTopicCommand × Channel :=
  if topic = TOPIC_COMMAND then
    let payloadStr := utf8LossyBytes payload
    let ch2 := (ch.send payloadStr).2
    match parse payloadStr with
    | some json_msg => (updateSendingCommand sending_command json_msg, ch2)
    | none => (sending_command, ch2)
  else (sending_command, ch)

/-- One iteration of the dispatch loop (main.rs:131-167): a delivered
message is processed and the loop moves on; a `None` stream item runs
`mqtt_reconnect` and then continues.  No branch leaves the loop. -/
def mqttStreamStep (parse : List Nat → Option Json) (sending_command : SendingTopicCommand)
    (ch : Channel) (item : Option (String × List Nat)) :
    SendingTopicCommand × Channel × MqttCtl :=
  match item with
  | some (topic, payload) =>
    let (rec2, ch2) := mqttDispatch parse sending_command ch topic payload
    (rec2, ch2, MqttCtl.next)
  | none => (sending_command, ch, MqttCtl.reconnect)

/-! ## Agent socket connection and handshake (main.rs:212-235) -/

/-- The bind message sent right after a successful socket connect
(main.rs:219): the `format!` of the configured bind id. -/
def bindMsg (bind_id : Nat) : String :=
  "\x7b\"address\":" ++ toString bind_id ++ ",\"method\":\"bind\"\x7d"

/-- The eight registration messages, in the order of the array literal at
main.rs:220-229. -/
def registerMsgs : List String :=
  [ "\x7b\"key\":\"auto.report\",\"method\":\"register\"\x7d",
    "\x7b\"key\":\"auto.forward\",\"method\":\"register\"\x7d",
    "\x7b\"key\":\"lanbox.event\",\"method\":\"register\"\x7d",
    "\x7b\"key\":\"auto.ifttt\",\"method\":\"register\"\x7d",
    "\x7b\"key\":\"auto.cross.ifttt\",\"method\":\"register\"\x7d",
    "\x7b\"key\":\"matter.control\",\"method\":\"register\"\x7d",
    "\x7b\"key\":\"matter.event\",\"method\":\"register\"\x7d",
    "\x7b\"key\":\"mtbr.control\",\"method\":\"register\"\x7d" ]

/-- The inner connect loop of `agent_manager` (main.rs:215-235) over a
finite list of `UnixSeqpacket::connect` outcomes: a failed attempt only
sleeps and retries, sending nothing; the first success sends the bind
message and the eight registrations and breaks.  Returns every message
sent over all the given attempts. -/
def agentConnectMsgs (bind_id : Nat) : List Bool → List String
  | [] => []
  | connectOk :: attempts =>
    if connectOk then bindMsg bind_id :: registerMsgs
    else agentConnectMsgs bind_id attempts

/-! ## Agent multiplex loop (main.rs:237-289)

One `tokio::select!` round is driven by which arm fired and with what
value; socket send success is an explicit parameter. -/

/-- The select arm that fired: a channel `recv` result (`none` = channel
closed), or a socket `recv` result (`Except.error` = read error, `ok bs`
= `n = bs.length` bytes read, `ok []` = EOF). -/
inductive AgentEvent where
  | cmd (c : Option (List Nat))
  | sock (r : Except Unit (List Nat))
deriving Repr

/-- What the loop body decided: go round again, `break` to reconnect, or
`return` from `agent_manager`. -/
inductive AgentCtl where
  | next
  | reconnect
  | exit
deriving DecidableEq, Repr

/-- Observable outcome of one select round: the broker publish it issued
(topic, raw bytes), the bytes it wrote to the agent socket, and the loop
control. -/
structure AgentRecvOut where
  publish : Option (String × List Nat)
  written : Option (List Nat)
  ctl : AgentCtl
deriving DecidableEq, Repr

/-- One round of the multiplex loop (main.rs:238-288).  A channel payload
is written to the socket as-is (`payload.as_bytes()`); a write error
breaks to reconnect; a closed channel returns.  Socket data of length `> 0`
is parsed (`parse` stands for `serde_json::from_slice::<Value>`): on
success the topic is `miio/command_ack` exactly when the parsed `id` is a
u64 equal to the record's `id`, else `openmiio/report`, and the raw bytes
are published; a parse failure logs and continues without publishing.  EOF
and read errors break to reconnect. -/
def agentStep (parse : List Nat → Option Json) (sending_command : SendingTopicCommand)
    (sockSendOk : Bool) (ev : AgentEvent) : AgentRecvOut :=
  match ev with
  | .cmd (some payload) =>
    if sockSendOk then { publish := none, written := some payload, ctl := .next }
    else { publish := none, written := none, ctl := .reconnect }
  | .cmd none => { publish := none, written := none, ctl := .exit }
  | .sock (.error _) => { publish := none, written := none, ctl := .reconnect }
  | .sock (.ok bs) =>
    if 0 < bs.length then
      match parse bs with
      | some msg =>
        let topic : String :=
          match (msg.get "id").bind JVal.as_u64 with
          | some recv_id =>
            if sending_command.id = recv_id then TOPIC_COMMAND_ACK else TOPIC_RESPONSE
          | none => TOPIC_RESPONSE
        { publish := some (topic, bs), written := none, ctl := .next }
      | none => { publish := none, written := none, ctl := .next }
    else { publish := none, written := none, ctl := .reconnect }

/-! ## Helper lemmas -/

/-- On valid input, the lossy worker copies its input verbatim. -/
theorem utf8LossyGo_of_valid (fuel : Nat) :
    ∀ bs : List Nat, bs.length ≤ fuel → utf8ValidGo fuel bs = true →
      utf8LossyGo fuel bs = bs := by
  induction fuel with
  | zero =>
    intro bs hlen _
    cases bs with
    | nil => rfl
    | cons b rest => simp at hlen
  | succ fuel ih =>
    intro bs hlen hv
    cases bs with
    | nil => rfl
    | cons b rest =>
      rw [utf8ValidGo] at hv
      rw [utf8LossyGo]
      have hok : (utf8StepCore b rest).2 = true := by
        cases h : (utf8StepCore b rest).2 <;> simp [h] at hv ⊢
      have hrest : utf8ValidGo fuel (rest.drop (utf8StepCore b rest).1) = true := by
        cases h : utf8ValidGo fuel (rest.drop (utf8StepCore b rest).1) <;>
          simp [h, hok] at hv ⊢
      have hdlen : (rest.drop (utf8StepCore b rest).1).length ≤ fuel := by
        have := List.length_drop (utf8StepCore b rest).1 rest
        simp only [List.length_cons] at hlen
        omega
      rw [hok, ih _ hdlen hrest]
      simp [List.take_append_drop]

/-- Valid UTF-8 makes the lossy round trip the identity. -/
theorem utf8LossyBytes_of_valid (bs : List Nat) (h : utf8Valid bs = true) :
    utf8LossyBytes bs = bs :=
  utf8LossyGo_of_valid bs.length bs (Nat.le_refl _) h

/-- Field-wise description of `updateSendingCommand`: each field takes the
parsed u64 of its own key when available and keeps its prior value
otherwise, independently of the other keys. -/
theorem updateSendingCommand_fields (sending_command : SendingTopicCommand) (json_msg : Json) :
    ((updateSendingCommand sending_command json_msg).id
      = ((json_msg.get "id").bind JVal.as_u64).getD sending_command.id)
  ∧ ((updateSendingCommand sending_command json_msg).to_
      = ((json_msg.get "_to").bind JVal.as_u64).getD sending_command.to_)
  ∧ ((updateSendingCommand sending_command json_msg).from_
      = ((json_msg.get "_from").bind JVal.as_u64).getD sending_command.from_) := by
  cases h1 : (json_msg.get "id").bind JVal.as_u64 <;>
    cases h2 : (json_msg.get "_to").bind JVal.as_u64 <;>
      cases h3 : (json_msg.get "_from").bind JVal.as_u64 <;>
        simp [updateSendingCommand, h1, h2, h3]

/-- Whenever `mqtt_reconnect` returns, the returned session is connected
and subscribed. -/
theorem mqtt_reconnect_all (client : MqttConn) (trials : List (Bool × Bool)) :
    ((mqtt_reconnect client trials).all fun c => c.connected && c.subscribed) = true := by
  induction trials generalizing client with
  | nil => rfl
  | cons t rest ih =>
    obtain ⟨reconnectOk, subscribeOk⟩ := t
    cases reconnectOk <;> cases subscribeOk <;>
      simp [mqtt_reconnect, mqtt_subscribe, ih]

/-- Whenever the initial connection loop of `mqtt_manager` breaks, the
resulting session is not connected-but-unsubscribed: `mqtt_subscribe`
disconnected it on failure. -/
theorem mqtt_manager_connect_all (subscribeOk : Bool) (attempts : List Bool) :
    ((mqtt_manager_connect subscribeOk attempts).all
      fun c => !c.connected || c.subscribed) = true := by
  induction attempts with
  | nil => rfl
  | cons a rest ih =>
    cases a <;> cases subscribeOk <;> simp_all [mqtt_manager_connect, mqtt_subscribe]

/-! ## Claims -/

/-- C1 counterexample: with the Command Channel at capacity (32 queued
messages) and its receiver alive, the enqueue of an arriving command does
NOT fail and the message is NOT dropped — `send(...).await` succeeds after
suspending (blocking the dispatch iteration) and the message joins the
queue; the claimed log-and-drop does not happen. -/
theorem C1_full_channel_counterexample :
    (channelCapacity ≤ (List.replicate 32 ([] : List Nat)).length)
  ∧ ((mqttDispatch (fun _ => none) SENDING_TOPIC_COMMAND_init
        { closed := false, queue := List.replicate 32 [] } TOPIC_COMMAND [0x61]).2.queue
      = List.replicate 32 [] ++ [[0x61]])
  ∧ (({ closed := false, queue := List.replicate 32 [] } : Channel).send [0x61]).1
      = { ok := true, blocked := true } := by decide

/-- C1 (amended): for every inbound command message, the dispatch loop
iteration completes and moves to the next item; the send into the Command
Channel fails exactly when the receiver has been dropped (the message is
then dropped and the failure only logged), while with a live receiver the
message is always enqueued — when the queue is at capacity the send
suspends the dispatch iteration until space is available instead of
failing or dropping. -/
theorem C1_backpressure (parse : List Nat → Option Json)
    (sending_command : SendingTopicCommand) (ch : Channel) (payload : List Nat) :
    ((mqttStreamStep parse sending_command ch (some (TOPIC_COMMAND, payload))).2.2
      = MqttCtl.next)
  ∧ ((mqttStreamStep parse sending_command ch (some (TOPIC_COMMAND, payload))).2.1.queue
      = if ch.closed then ch.queue else ch.queue ++ [utf8LossyBytes payload])
  ∧ ((ch.send (utf8LossyBytes payload)).1.ok = !ch.closed)
  ∧ ((ch.send (utf8LossyBytes payload)).1.blocked
      = (!ch.closed && decide (channelCapacity ≤ ch.queue.length))) := by
  cases h : ch.closed <;>
    cases hp : parse (utf8LossyBytes payload) <;>
      simp [mqttStreamStep, mqttDispatch, Channel.send, h, hp]

/-- C2 counterexample: a command payload that is not valid UTF-8 is not
forwarded byte-for-byte: the payload `[0xFF]` reaches the channel (and
hence the socket write) as the UTF-8 encoding of U+FFFD, because
`payload_str()` decodes lossily. -/
theorem C2_non_utf8_counterexample :
    ((mqttDispatch (fun _ => none) SENDING_TOPIC_COMMAND_init
        { closed := false, queue := [] } TOPIC_COMMAND [0xFF]).2.queue
      = [[0xEF, 0xBF, 0xBD]])
  ∧ ((agentStep (fun _ => none) SENDING_TOPIC_COMMAND_init true
        (.cmd (some [0xEF, 0xBF, 0xBD]))).written = some [0xEF, 0xBF, 0xBD])
  ∧ [0xEF, 0xBF, 0xBD] ≠ [0xFF] := by decide

/-- C2 (amended): for every command payload that is valid UTF-8, the bytes
put on the Command Channel equal the broker payload byte-for-byte, and the
agent loop writes any channel payload to the socket unmodified; payloads
with invalid UTF-8 sequences are altered by the lossy string decoding
before entering the channel. -/
theorem C2_roundtrip_valid_utf8 (parse : List Nat → Option Json)
    (sending_command : SendingTopicCommand) (ch : Channel) (payload : List Nat)
    (hv : utf8Valid payload = true) (hc : ch.closed = false) :
    ((mqttDispatch parse sending_command ch TOPIC_COMMAND payload).2.queue
      = ch.queue ++ [payload])
  ∧ (∀ p : List Nat,
      (agentStep parse sending_command true (.cmd (some p))).written = some p) := by
  constructor
  · have hl := utf8LossyBytes_of_valid payload hv
    cases hp : parse payload <;>
      simp [mqttDispatch, Channel.send, hc, hl, hp]
  · intro p
    simp [agentStep]

/-- C2 witness: the amended round trip at the valid-UTF-8 payload
`[0x61, 0x62]` over an open channel already holding one message. -/
theorem C2_roundtrip_witness :
    (utf8Valid [0x61, 0x62] = true)
  ∧ ((mqttDispatch (fun _ => none) SENDING_TOPIC_COMMAND_init
        { closed := false, queue := [[0x63]] } TOPIC_COMMAND [0x61, 0x62]).2.queue
      = [[0x63]] ++ [[0x61, 0x62]]) :=
  ⟨by decide,
   (C2_roundtrip_valid_utf8 (fun _ => none) SENDING_TOPIC_COMMAND_init
      { closed := false, queue := [[0x63]] } [0x61, 0x62] (by decide) rfl).1⟩

/-- C3: `mqtt_subscribe` reports success exactly when the subscribe call
succeeded, and on failure it has explicitly disconnected the client, so
its resulting session is never connected-but-unsubscribed; consequently
`mqtt_reconnect` only returns a connected-and-subscribed session, and even
the initial connection path of `mqtt_manager` (which discards the
subscribe result) never proceeds with a connected-but-unsubscribed
session. -/
theorem C3_connect_subscribe_contract (client : MqttConn) (subscribeOk : Bool)
    (trials : List (Bool × Bool)) (attempts : List Bool) :
    ((mqtt_subscribe client subscribeOk).1 = subscribeOk)
  ∧ ((mqtt_subscribe client false).2.connected = false)
  ∧ ((!(mqtt_subscribe client subscribeOk).2.connected
      || (mqtt_subscribe client subscribeOk).2.subscribed) = true)
  ∧ (((mqtt_reconnect client trials).all fun c => c.connected && c.subscribed) = true)
  ∧ (((mqtt_manager_connect subscribeOk attempts).all
      fun c => !c.connected || c.subscribed) = true) := by
  refine ⟨?_, by simp [mqtt_subscribe], ?_, mqtt_reconnect_all client trials,
    mqtt_manager_connect_all subscribeOk attempts⟩
  · cases subscribeOk <;> simp [mqtt_subscribe]
  · cases subscribeOk <;> simp [mqtt_subscribe]

/-- C4: an agent datagram that parses is published to `miio/command_ack`
exactly when its `id` is a u64 equal to the record's `pending_id`, and to
`openmiio/report` otherwise (id unequal, absent, or not a u64) — one
publish, to one topic, carrying the raw bytes. -/
theorem C4_ack_report_classification (parse : List Nat → Option Json)
    (sending_command : SendingTopicCommand) (sockSendOk : Bool) (bs : List Nat) (msg : Json)
    (hp : parse bs = some msg) (hn : 0 < bs.length) :
    (agentStep parse sending_command sockSendOk (.sock (.ok bs))).publish
      = some ((if (msg.get "id").bind JVal.as_u64 = some sending_command.id
               then TOPIC_COMMAND_ACK else TOPIC_RESPONSE), bs) := by
  cases hid : (msg.get "id").bind JVal.as_u64 with
  | none => simp [agentStep, hn, hp, hid]
  | some recv_id =>
    by_cases he : sending_command.id = recv_id
    · simp [agentStep, hn, hp, hid, he]
    · have hne : ¬ (some recv_id = some sending_command.id) := by
        intro hcon
        exact he (Option.some.inj hcon).symm
      simp [agentStep, hn, hp, hid, he, hne]

/-- C4 witness: record id 42, response `id` 42 → published to the ack
topic with the raw bytes. -/
theorem C4_classification_witness :
    (agentStep (fun _ => some [("id", JVal.uint 42)]) { id := 42, to_ := 0, from_ := 0 } true
        (.sock (.ok [0x61]))).publish
      = some ((if (Json.get [("id", JVal.uint 42)] "id").bind JVal.as_u64 = some 42
               then TOPIC_COMMAND_ACK else TOPIC_RESPONSE), [0x61]) :=
  C4_ack_report_classification (fun _ => some [("id", JVal.uint 42)])
    { id := 42, to_ := 0, from_ := 0 } true [0x61] [("id", JVal.uint 42)] rfl (by decide)

/-- C5: for every parsed inbound command payload, each correlation field
is updated independently and stickily: it becomes the key's u64 value when
the key is present (with a u64 value) and keeps its prior value when the
key is absent. -/
theorem C5_sticky_fields (sending_command : SendingTopicCommand) (json_msg : Json) :
    ((updateSendingCommand sending_command json_msg).id
      = ((json_msg.get "id").bind JVal.as_u64).getD sending_command.id)
  ∧ ((updateSendingCommand sending_command json_msg).to_
      = ((json_msg.get "_to").bind JVal.as_u64).getD sending_command.to_)
  ∧ ((updateSendingCommand sending_command json_msg).from_
      = ((json_msg.get "_from").bind JVal.as_u64).getD sending_command.from_) :=
  updateSendingCommand_fields sending_command json_msg

/-- C6: over any sequence of socket connect attempts, the handshake is
sent exactly once per successful connection — the bind message followed by
the eight registration messages in their fixed order — and failed attempts
send nothing, so retries never duplicate handshake messages. -/
theorem C6_handshake_once_per_connection (bind_id : Nat) (attempts : List Bool) :
    (agentConnectMsgs bind_id attempts
      = if attempts.contains true then bindMsg bind_id :: registerMsgs else [])
  ∧ (bindMsg bind_id :: registerMsgs).length = 9
  ∧ agentConnectMsgs bind_id (List.replicate 5 false) = [] := by
  refine ⟨?_, rfl, rfl⟩
  induction attempts with
  | nil => rfl
  | cons a rest ih => cases a <;> simp [agentConnectMsgs, ih]

/-- C7: a payload that fails JSON parsing is discarded harmlessly on both
sides: the broker-side dispatch leaves the correlation record unchanged
and moves to the next stream item, and the agent-side loop publishes
nothing, writes nothing, and continues without touching connection
state. -/
theorem C7_malformed_payload_discarded (parse : List Nat → Option Json)
    (sending_command : SendingTopicCommand) (ch : Channel) (payload bs : List Nat)
    (sockSendOk : Bool)
    (hm : parse (utf8LossyBytes payload) = none) (ha : parse bs = none)
    (hn : 0 < bs.length) :
    ((mqttDispatch parse sending_command ch TOPIC_COMMAND payload).1 = sending_command)
  ∧ ((mqttStreamStep parse sending_command ch (some (TOPIC_COMMAND, payload))).2.2
      = MqttCtl.next)
  ∧ ((agentStep parse sending_command sockSendOk (.sock (.ok bs)))
      = { publish := none, written := none, ctl := .next }) := by
  refine ⟨?_, ?_, ?_⟩
  · simp [mqttDispatch, hm]
  · simp [mqttStreamStep]
  · simp [agentStep, hn, ha]

/-- C7 witness: a parser rejecting everything, the broker payload `[0x61]`
and the agent datagram `[0x62]`. -/
theorem C7_malformed_witness :
    ((mqttDispatch (fun _ => none) SENDING_TOPIC_COMMAND_init
        { closed := false, queue := [] } TOPIC_COMMAND [0x61]).1
      = SENDING_TOPIC_COMMAND_init)
  ∧ ((agentStep (fun _ => none) SENDING_TOPIC_COMMAND_init true (.sock (.ok [0x62])))
      = { publish := none, written := none, ctl := .next }) :=
  ⟨(C7_malformed_payload_discarded (fun _ => none) SENDING_TOPIC_COMMAND_init
      { closed := false, queue := [] } [0x61] [0x62] true rfl rfl (by decide)).1,
   (C7_malformed_payload_discarded (fun _ => none) SENDING_TOPIC_COMMAND_init
      { closed := false, queue := [] } [0x61] [0x62] true rfl rfl (by decide)).2.2⟩

/-- C8: one round of the agent multiplex loop returns from `agent_manager`
exactly when the Command Channel's receive yields nothing (channel
permanently closed); every other failure — socket write error, read error,
zero-length read — only breaks to the reconnect path, and successful
rounds continue the loop. -/
theorem C8_exit_iff_channel_closed (parse : List Nat → Option Json)
    (sending_command : SendingTopicCommand) (sockSendOk : Bool) (ev : AgentEvent) :
    ((agentStep parse sending_command sockSendOk ev).ctl = AgentCtl.exit
      ↔ ev = AgentEvent.cmd none)
  ∧ (∀ payload : List Nat,
      (agentStep parse sending_command sockSendOk (.cmd (some payload))).ctl
        = if sockSendOk then AgentCtl.next else AgentCtl.reconnect)
  ∧ ((agentStep parse sending_command sockSendOk (.sock (.error ()))).ctl
      = AgentCtl.reconnect)
  ∧ ((agentStep parse sending_command sockSendOk (.sock (.ok []))).ctl
      = AgentCtl.reconnect) := by
  refine ⟨?_, ?_, by simp [agentStep], by simp [agentStep]⟩
  · cases ev with
    | cmd c =>
      cases c with
      | none => simp [agentStep]
      | some payload => cases sockSendOk <;> simp [agentStep]
    | sock r =>
      cases r with
      | error e => simp [agentStep]
      | ok bs =>
        cases bs with
        | nil => simp [agentStep]
        | cons b rest =>
          cases hp : parse (b :: rest) <;> simp [agentStep, hp]
  · intro payload
    cases sockSendOk <;> simp [agentStep]

/-- C9: the correlation record starts with `pending_id = 0`, so an agent
response parsing to `id = 0` that arrives before any command is classified
as an acknowledgment and published to `miio/command_ack` (here on the
datagram bytes of the literal `{"id":0}`). -/
theorem C9_default_id_zero_acks :
    SENDING_TOPIC_COMMAND_init.id = 0
  ∧ ((agentStep (fun _ => some [("id", JVal.uint 0)]) SENDING_TOPIC_COMMAND_init true
      (.sock (.ok [0x7b, 0x22, 0x69, 0x64, 0x22, 0x3a, 0x30, 0x7d]))).publish
      = some (TOPIC_COMMAND_ACK, [0x7b, 0x22, 0x69, 0x64, 0x22, 0x3a, 0x30, 0x7d])) := by
  decide

/-- C10: a correlation key whose value is not representable as a u64
(negative, fractional, a string, ...) is treated as absent: the
corresponding record field keeps its prior value, and on the agent side
such an `id` never matches, so the response is published to the report
topic. -/
theorem C10_non_u64_treated_as_absent (sending_command : SendingTopicCommand)
    (j : Json) (v : JVal) (hv : JVal.as_u64 v = none) :
    (j.get "id" = some v →
      (updateSendingCommand sending_command j).id = sending_command.id)
  ∧ (j.get "_to" = some v →
      (updateSendingCommand sending_command j).to_ = sending_command.to_)
  ∧ (j.get "_from" = some v →
      (updateSendingCommand sending_command j).from_ = sending_command.from_)
  ∧ (∀ (parse : List Nat → Option Json) (bs : List Nat),
      parse bs = some j → j.get "id" = some v → 0 < bs.length →
      (agentStep parse sending_command true (.sock (.ok bs))).publish
        = some (TOPIC_RESPONSE, bs)) := by
  have hf := updateSendingCommand_fields sending_command j
  refine ⟨fun h => ?_, fun h => ?_, fun h => ?_, fun parse bs hp h hn => ?_⟩
  · rw [hf.1, h]
    simp [hv]
  · rw [hf.2.1, h]
    simp [hv]
  · rw [hf.2.2, h]
    simp [hv]
  · have hid : (j.get "id").bind JVal.as_u64 = none := by
      rw [h]
      simp [hv]
    simp [agentStep, hn, hp, hid]

/-- C10 witness: all three keys carry the string value `"x"` against the
record `(5, 6, 7)`; every field is kept and the response with that `id`
goes to the report topic. -/
theorem C10_string_valued_witness :
    ((updateSendingCommand { id := 5, to_ := 6, from_ := 7 }
        [("id", JVal.str "x"), ("_to", JVal.str "x"), ("_from", JVal.str "x")]).id = 5)
  ∧ ((agentStep (fun _ => some [("id", JVal.str "x"), ("_to", JVal.str "x"),
        ("_from", JVal.str "x")]) { id := 5, to_ := 6, from_ := 7 } true
        (.sock (.ok [0x61]))).publish = some (TOPIC_RESPONSE, [0x61])) :=
  ⟨(C10_non_u64_treated_as_absent { id := 5, to_ := 6, from_ := 7 }
      [("id", JVal.str "x"), ("_to", JVal.str "x"), ("_from", JVal.str "x")]
      (JVal.str "x") rfl).1 (by decide),
   (C10_non_u64_treated_as_absent { id := 5, to_ := 6, from_ := 7 }
      [("id", JVal.str "x"), ("_to", JVal.str "x"), ("_from", JVal.str "x")]
      (JVal.str "x") rfl).2.2.2 (fun _ => some [("id", JVal.str "x"), ("_to", JVal.str "x"),
        ("_from", JVal.str "x")]) [0x61] rfl (by decide) (by decide)⟩

end Agent2Mqtt
